import Mathlib

/-!
# Shallow embedding of the call-lifecycle logic of audio-omegle

This file embeds the client logic of `src/components/ChatComponent.tsx`.
The React component's refs and state hooks become fields of a `World`
record; each socket handler (`partnerFound`, `offer`, `answer`,
`ice-candidate`, `hangup`, `disconnect`), each user action
(`handleButtonClick`, `toggleAutoSearch`), every timer callback
(`setTimeout` bodies) and the `onconnectionstatechange` callback become
functions `World → World`.  Outcomes decided by the environment
(`getUserMedia` resolving or rejecting, connection-state transitions,
timers firing) are parameters of the corresponding events.

Allocated `MediaStream` and `RTCPeerConnection` objects are kept in
lists indexed by allocation order, so that objects that the component
drops its reference to (without stopping or closing them) remain
observable, as they do in the browser.
-/

namespace AudioOmegle

/-- Opaque SDP description produced by `createOffer` / `createAnswer`
(the payload is opaque to the component). -/
inductive Sdp where
  | offerSdp (n : Nat)
  | answerSdp (n : Nat)
deriving DecidableEq

/-- Opaque ICE candidate payload. -/
abbrev Candidate := Nat

/-- `RTCPeerConnection.connectionState` values. -/
inductive ConnState where
  | newConn
  | connecting
  | connected
  | disconnected
  | failed
  | closed
deriving DecidableEq

/-- One allocated `RTCPeerConnection`.  `timeoutId` is the id of the 10 s
connection timeout scheduled by `startCall` right after creating it (the
`onconnectionstatechange` closure captures exactly that timer). -/
structure PeerConnection where
  closed : Bool
  connectionState : ConnState
  remoteDescription : Option Sdp
  localDescription : Option Sdp
  addedCandidates : List Candidate
  addedTracks : List Nat
  timeoutId : Nat
deriving DecidableEq

/-- One allocated local `MediaStream`; `stopped` means all its tracks have
been stopped. -/
structure MediaStream where
  stopped : Bool
deriving DecidableEq

/-- Messages sent with `socket.emit`. -/
inductive Emission where
  | findPartner
  | offerMsg (roomId : String) (sdp : Sdp)
  | answerMsg (roomId : Option String) (sdp : Sdp)
  | hangupMsg (roomId : String)
deriving DecidableEq

/-- The body of a `setTimeout` callback in the component. -/
inductive TimerAction where
  | emitFindPartner
  | connTimeout
deriving DecidableEq

/-- A pending `setTimeout` timer. -/
structure Timer where
  id : Nat
  delayMs : Nat
  action : TimerAction
deriving DecidableEq

/-- The component's state: React state hooks (`roomId`, `status`,
`errorMsg`, `autoSearch`), refs (`peerConnectionRef`, `localStreamRef`),
plus the environment bookkeeping (allocated objects, pending timers,
emitted messages).  `statusLog` records every `setStatus` call in order. -/
structure World where
  roomId : Option String
  status : String
  statusLog : List String
  errorMsg : Option String
  autoSearch : Bool
  peerConnectionRef : Option Nat
  localStreamRef : Option Nat
  pcs : List PeerConnection
  streams : List MediaStream
  timers : List Timer
  emissions : List Emission
  nextTimerId : Nat
deriving DecidableEq

/-- Update the element at index `i` (no-op when out of range). -/
def modifyAt {α : Type} (l : List α) (i : Nat) (f : α → α) : List α :=
  match l[i]? with
  | some a => l.set i (f a)
  | none => l

/-- `setStatus(s)`: updates the status and appends to the log of statuses
ever set. -/
def setStatus (w : World) (s : String) : World :=
  { w with status := s, statusLog := w.statusLog ++ [s] }

/-- `cleanupCall` (ChatComponent.tsx lines 186–201): stop local tracks and
drop the ref, close the peer connection and drop the ref, clear `roomId`,
set status `Idle`; then, if `autoSearch`, set the searching status and
schedule a 500 ms timer emitting `findPartner`. -/
def cleanupCall (w : World) : World :=
  let w1 := match w.localStreamRef with
    | some i =>
        let streams := modifyAt w.streams i (fun s => { s with stopped := true })
        { w with streams := streams, localStreamRef := none }
    | none => w
  let w2 := match w1.peerConnectionRef with
    | some i =>
        let pcs := modifyAt w1.pcs i
          (fun p => { p with closed := true, connectionState := ConnState.closed })
        { w1 with pcs := pcs, peerConnectionRef := none }
    | none => w1
  let w3 := setStatus { w2 with roomId := none } "Idle"
  if w3.autoSearch then
    let w4 := setStatus w3 "Searching for a partner..."
    { w4 with
      timers := w4.timers ++ [Timer.mk w4.nextTimerId 500 TimerAction.emitFindPartner],
      nextTimerId := w4.nextTimerId + 1 }
  else w3

/-- `startCall(room, isInitiator)` (lines 122–183): early-return when
`room` is null; otherwise create the `RTCPeerConnection`, set the status,
schedule the 10 s connection timeout, then `getUserMedia` (`mediaGranted`
models whether it resolves or rejects), store the stream, add its tracks,
and when initiator create/set the local offer and emit it.  The catch
branch (media rejection) sets the error and status `Error`. -/
def startCall (w : World) (room : Option String) (isInitiator : Bool)
    (mediaGranted : Bool) : World :=
  match room with
  | none => w
  | some r =>
    let pcId := w.pcs.length
    let tId := w.nextTimerId
    let pc : PeerConnection :=
      { closed := false, connectionState := ConnState.newConn,
        remoteDescription := none, localDescription := none,
        addedCandidates := [], addedTracks := [], timeoutId := tId }
    let w1 := setStatus { w with pcs := w.pcs ++ [pc], peerConnectionRef := some pcId }
        "Initializing call..."
    let w2 :=
      { w1 with
        timers := w1.timers ++ [Timer.mk tId 10000 TimerAction.connTimeout],
        nextTimerId := tId + 1 }
    if mediaGranted then
      let sId := w2.streams.length
      let w3 := { w2 with streams := w2.streams ++ [MediaStream.mk false], localStreamRef := some sId }
      let pcs4 := modifyAt w3.pcs pcId
        (fun p => { p with addedTracks := p.addedTracks ++ [sId] })
      let w4 := { w3 with pcs := pcs4 }
      if isInitiator then
        let offer := Sdp.offerSdp pcId
        let pcs5 := modifyAt w4.pcs pcId
          (fun p => { p with localDescription := some offer })
        let w5 := { w4 with pcs := pcs5 }
        { w5 with emissions := w5.emissions ++ [Emission.offerMsg r offer] }
      else w4
    else
      setStatus { w2 with errorMsg := some "Error starting call" } "Error"

/-- `socket.on('partnerFound')` (lines 71–75): set `roomId` and status,
then `startCall(data.roomId, data.isInitiator)`. -/
def handlePartnerFound (w : World) (room : String) (isInitiator mediaGranted : Bool) :
    World :=
  startCall (setStatus { w with roomId := some room } "Partner found, starting call...")
    (some room) isInitiator mediaGranted

/-- Second half of the offer handler (lines 79–84): if a peer connection
exists, set the remote description, create and set the local answer, and
emit `answer` with the component's current `roomId`. -/
def respondToOffer (w : World) (offer : Sdp) : World :=
  match w.peerConnectionRef with
  | none => w
  | some i =>
    let pcs2 := modifyAt w.pcs i
      (fun p => { p with remoteDescription := some offer })
    let w2 := { w with pcs := pcs2 }
    let ans := Sdp.answerSdp i
    let pcs3 := modifyAt w2.pcs i
      (fun p => { p with localDescription := some ans })
    let w3 := { w2 with pcs := pcs3 }
    { w3 with emissions := w3.emissions ++ [Emission.answerMsg w3.roomId ans] }

/-- `socket.on('offer')` (lines 77–85): if no peer connection,
`startCall(roomId, false)` (lazy creation); then respond to the offer. -/
def handleOffer (w : World) (offer : Sdp) (mediaGranted : Bool) : World :=
  respondToOffer (if w.peerConnectionRef.isNone
    then startCall w w.roomId false mediaGranted else w) offer

/-- `socket.on('answer')` (lines 87–91): if a peer connection exists, set
the remote description; otherwise nothing. -/
def handleAnswer (w : World) (ans : Sdp) : World :=
  match w.peerConnectionRef with
  | none => w
  | some i =>
      let pcs := modifyAt w.pcs i
        (fun p => { p with remoteDescription := some ans })
      { w with pcs := pcs }

/-- `socket.on('ice-candidate')` (lines 93–101): when a peer connection
exists and the candidate is non-null, call `addIceCandidate` inside
try/catch.  Per the WebRTC contract, `addIceCandidate` rejects with
`InvalidStateError` when no remote description is set; the catch logs the
error and the candidate is dropped.  With a remote description set the
candidate is applied immediately.  There is no queue of any kind. -/
def handleIceCandidate (w : World) (cand : Option Candidate) : World :=
  match w.peerConnectionRef, cand with
  | some i, some c =>
    match w.pcs[i]? with
    | some p =>
      if p.remoteDescription.isSome then
        let pcs := modifyAt w.pcs i
          (fun q => { q with addedCandidates := q.addedCandidates ++ [c] })
        { w with pcs := pcs }
      else w
    | none => w
  | _, _ => w

/-- `socket.on('hangup')` (lines 103–106): set status then `cleanupCall`. -/
def handleHangup (w : World) : World :=
  cleanupCall (setStatus w "Partner hung up")

/-- `socket.on('disconnect')` (lines 108–111): set status then
`cleanupCall`. -/
def handleDisconnect (w : World) : World :=
  cleanupCall (setStatus w "Disconnected from server")

/-- `handleButtonClick` (lines 205–225): with a `roomId`, emit `hangup`
and clean up; otherwise request media — on success store the stream and
emit `findPartner`, on failure record the error and return to `Idle`. -/
def handleButtonClick (w : World) (mediaGranted : Bool) : World :=
  match w.roomId with
  | some r => cleanupCall { w with emissions := w.emissions ++ [Emission.hangupMsg r] }
  | none =>
    let w1 := setStatus w "Requesting audio permissions..."
    if mediaGranted then
      let sId := w1.streams.length
      let w2 := { w1 with streams := w1.streams ++ [MediaStream.mk false], localStreamRef := some sId }
      let w3 := setStatus w2 "Audio access granted. Searching for a partner..."
      { w3 with emissions := w3.emissions ++ [Emission.findPartner] }
    else
      setStatus { w1 with errorMsg := some "Audio permission error" } "Idle"

/-- `toggleAutoSearch` (lines 227–229): `setAutoSearch(!autoSearch)`. -/
def toggleAutoSearch (w : World) : World :=
  { w with autoSearch := !w.autoSearch }

/-- The browser sets `connectionState` on peer connection `i` and fires
its `onconnectionstatechange` handler (lines 136–145).  The handler reads
`peerConnectionRef.current?.connectionState` (the current ref, which may
differ from `i`); when it reads `connected` it clears the connection
timeout captured by the closure of peer connection `i`; when it reads
`disconnected`, `failed` or `closed` it runs `cleanupCall`. -/
def handleConnectionStateChange (w : World) (i : Nat) (s : ConnState) : World :=
  let w1 := { w with pcs := modifyAt w.pcs i (fun p => { p with connectionState := s }) }
  let cur := w1.peerConnectionRef.bind fun j => (w1.pcs[j]?).map (·.connectionState)
  let w2 :=
    if cur = some ConnState.connected then
      match w1.pcs[i]? with
      | some p => { w1 with timers := w1.timers.filter (fun t => t.id != p.timeoutId) }
      | none => w1
    else w1
  if cur = some ConnState.disconnected ∨ cur = some ConnState.failed ∨
      cur = some ConnState.closed then
    cleanupCall w2
  else w2

/-- Fire the pending timer with id `tid` (no-op when no such timer is
pending, e.g. because `clearTimeout` removed it).  The
`emitFindPartner` body (line 197–199) emits `findPartner`
unconditionally; the `connTimeout` body (lines 129–134) reads the
current `peerConnectionRef` and runs `cleanupCall` unless its
`connectionState` is `connected`. -/
def fireTimer (w : World) (tid : Nat) : World :=
  match w.timers.find? (fun t => t.id == tid) with
  | none => w
  | some t =>
    let w1 := { w with timers := w.timers.filter (fun u => u.id != tid) }
    match t.action with
    | TimerAction.emitFindPartner =>
        { w1 with emissions := w1.emissions ++ [Emission.findPartner] }
    | TimerAction.connTimeout =>
        let cur := w1.peerConnectionRef.bind fun j => (w1.pcs[j]?).map (·.connectionState)
        if cur = some ConnState.connected then w1 else cleanupCall w1

/-- Every event the component reacts to. -/
inductive Event where
  | partnerFound (room : String) (isInitiator mediaGranted : Bool)
  | offer (sdp : Sdp) (mediaGranted : Bool)
  | answer (sdp : Sdp)
  | iceCandidate (cand : Option Candidate)
  | hangup
  | disconnect
  | buttonClick (mediaGranted : Bool)
  | toggleAuto
  | connStateChange (i : Nat) (s : ConnState)
  | timerFire (tid : Nat)
deriving DecidableEq

/-- One step of the component. -/
def step (w : World) : Event → World
  | Event.partnerFound r ini g => handlePartnerFound w r ini g
  | Event.offer sdp g => handleOffer w sdp g
  | Event.answer a => handleAnswer w a
  | Event.iceCandidate c => handleIceCandidate w c
  | Event.hangup => handleHangup w
  | Event.disconnect => handleDisconnect w
  | Event.buttonClick g => handleButtonClick w g
  | Event.toggleAuto => toggleAutoSearch w
  | Event.connStateChange i s => handleConnectionStateChange w i s
  | Event.timerFire tid => fireTimer w tid

/-- Process a list of events in order. -/
def run (w : World) (es : List Event) : World := es.foldl step w

/-- Initial component state: `roomId = null`, `status = 'Idle'`,
`autoSearch = true`, no refs, nothing allocated. -/
def init : World :=
  { roomId := none, status := "Idle", statusLog := [], errorMsg := none,
    autoSearch := true, peerConnectionRef := none, localStreamRef := none,
    pcs := [], streams := [], timers := [], emissions := [], nextTimerId := 0 }



/-- Number of allocated local media streams whose tracks are still live. -/
def liveStreamCount (l : List MediaStream) : Nat :=
  (l.filter (fun s => !s.stopped)).length

/-- Number of allocated peer connections that have not been closed. -/
def livePeerConnectionCount (l : List PeerConnection) : Nat :=
  (l.filter (fun p => !p.closed)).length

/-- The status strings of the Idle/Searching phases of the UI (everything
shown while no call is being set up). -/
def searchingOrIdleStatus (s : String) : Bool :=
  s == "Idle" || s == "Searching for a partner..." ||
  s == "Audio access granted. Searching for a partner..." ||
  s == "Requesting audio permissions..."

/-- Reference invariant relating the peer-connection ref to `roomId` and
to the displayed status. -/
def RefInvariant (w : World) : Prop :=
  (w.peerConnectionRef.isSome → w.roomId.isSome) ∧
  (searchingOrIdleStatus w.status = true → w.peerConnectionRef = none)

/-- The observable state produced by `cleanupCall` in the sense of the
idempotence property: session fields, allocated objects, current status,
error and flag — everything except the pending-timer bookkeeping and the
log of past statuses. -/
def cleanupObservable (w : World) :
    Option String × String × Option String × Bool × Option Nat × Option Nat ×
      List PeerConnection × List MediaStream × List Emission :=
  (w.roomId, w.status, w.errorMsg, w.autoSearch, w.peerConnectionRef,
   w.localStreamRef, w.pcs, w.streams, w.emissions)

/-! ## Basic lemmas about `modifyAt` -/

theorem modifyAt_getElem?_self {α : Type} (l : List α) (i : Nat) (f : α → α) :
    (modifyAt l i f)[i]? = (l[i]?).map f := by
  unfold modifyAt
  cases h : l[i]? with
  | none => simp [h]
  | some a => simp [h, List.getElem?_set_self']

theorem modifyAt_nil {α : Type} (i : Nat) (f : α → α) :
    modifyAt ([] : List α) i f = [] := rfl

theorem modifyAt_cons_zero {α : Type} (a : α) (as : List α) (f : α → α) :
    modifyAt (a :: as) 0 f = f a :: as := by
  simp [modifyAt]

theorem modifyAt_cons_succ {α : Type} (a : α) (as : List α) (i : Nat) (f : α → α) :
    modifyAt (a :: as) (i + 1) f = a :: modifyAt as i f := by
  unfold modifyAt
  cases h : as[i]? with
  | none => simp [h]
  | some b => simp [h, List.set]

/-- If `f` never turns an element that fails `p` into one that satisfies
`p`, pointwise modification cannot increase the number of elements
satisfying `p`. -/
theorem length_filter_modifyAt_le {α : Type} (p : α → Bool) (f : α → α)
    (hf : ∀ a, p (f a) = true → p a = true) :
    ∀ (l : List α) (i : Nat),
      (List.filter p (modifyAt l i f)).length ≤ (List.filter p l).length := by
  intro l
  induction l with
  | nil => intro i; simp [modifyAt_nil]
  | cons a as ih =>
    intro i
    cases i with
    | zero =>
      rw [modifyAt_cons_zero]
      by_cases hfa : p (f a) = true
      · have hpa := hf a hfa
        simp [List.filter_cons, hfa, hpa]
      · have hfa' : p (f a) = false := by
          cases hview : p (f a) with
          | false => rfl
          | true => exact absurd hview hfa
        simp only [List.filter_cons, hfa']
        cases hpa : p a <;> simp [Nat.le_succ_of_le]
    | succ j =>
      rw [modifyAt_cons_succ]
      simp only [List.filter_cons]
      cases hpa : p a <;> simp [ih j]


/-! ## Field lemmas about `cleanupCall` -/

theorem cleanupCall_roomId (w : World) : (cleanupCall w).roomId = none := by
  unfold cleanupCall setStatus
  cases h1 : w.localStreamRef <;> cases h2 : w.peerConnectionRef <;>
    simp [h1, h2] <;> cases h3 : w.autoSearch <;> simp [h3]

theorem cleanupCall_peerConnectionRef (w : World) :
    (cleanupCall w).peerConnectionRef = none := by
  unfold cleanupCall setStatus
  cases h1 : w.localStreamRef <;> cases h2 : w.peerConnectionRef <;>
    simp [h1, h2] <;> cases h3 : w.autoSearch <;> simp [h3]

theorem cleanupCall_localStreamRef (w : World) :
    (cleanupCall w).localStreamRef = none := by
  unfold cleanupCall setStatus
  cases h1 : w.localStreamRef <;> cases h2 : w.peerConnectionRef <;>
    simp [h1, h2] <;> cases h3 : w.autoSearch <;> simp [h3]

theorem cleanupCall_autoSearch (w : World) : (cleanupCall w).autoSearch = w.autoSearch := by
  unfold cleanupCall setStatus
  cases h1 : w.localStreamRef <;> cases h2 : w.peerConnectionRef <;>
    simp [h1, h2] <;> cases h3 : w.autoSearch <;> simp [h3]

theorem cleanupCall_errorMsg (w : World) : (cleanupCall w).errorMsg = w.errorMsg := by
  unfold cleanupCall setStatus
  cases h1 : w.localStreamRef <;> cases h2 : w.peerConnectionRef <;>
    simp [h1, h2] <;> cases h3 : w.autoSearch <;> simp [h3]

theorem cleanupCall_emissions (w : World) : (cleanupCall w).emissions = w.emissions := by
  unfold cleanupCall setStatus
  cases h1 : w.localStreamRef <;> cases h2 : w.peerConnectionRef <;>
    simp [h1, h2] <;> cases h3 : w.autoSearch <;> simp [h3]

theorem cleanupCall_status (w : World) :
    (cleanupCall w).status =
      if w.autoSearch then "Searching for a partner..." else "Idle" := by
  unfold cleanupCall setStatus
  cases h1 : w.localStreamRef <;> cases h2 : w.peerConnectionRef <;>
    simp [h1, h2] <;> cases h3 : w.autoSearch <;> simp [h3]

theorem cleanupCall_timers (w : World) :
    (cleanupCall w).timers =
      if w.autoSearch then
        w.timers ++ [Timer.mk w.nextTimerId 500 TimerAction.emitFindPartner]
      else w.timers := by
  unfold cleanupCall setStatus
  cases h1 : w.localStreamRef <;> cases h2 : w.peerConnectionRef <;>
    simp [h1, h2] <;> cases h3 : w.autoSearch <;> simp [h3]

theorem cleanupCall_nextTimerId (w : World) :
    (cleanupCall w).nextTimerId =
      if w.autoSearch then w.nextTimerId + 1 else w.nextTimerId := by
  unfold cleanupCall setStatus
  cases h1 : w.localStreamRef <;> cases h2 : w.peerConnectionRef <;>
    simp [h1, h2] <;> cases h3 : w.autoSearch <;> simp [h3]

theorem cleanupCall_statusLog (w : World) :
    (cleanupCall w).statusLog =
      w.statusLog ++ ["Idle"] ++
        (if w.autoSearch then ["Searching for a partner..."] else []) := by
  unfold cleanupCall setStatus
  cases h1 : w.localStreamRef <;> cases h2 : w.peerConnectionRef <;>
    simp [h1, h2] <;> cases h3 : w.autoSearch <;> simp [h3]

theorem cleanupCall_streams_of_none (w : World) (h : w.localStreamRef = none) :
    (cleanupCall w).streams = w.streams := by
  unfold cleanupCall setStatus
  cases h2 : w.peerConnectionRef <;>
    simp [h, h2] <;> cases h3 : w.autoSearch <;> simp [h3]

theorem cleanupCall_streams_of_some (w : World) (i : Nat) (h : w.localStreamRef = some i) :
    (cleanupCall w).streams =
      modifyAt w.streams i (fun s => { s with stopped := true }) := by
  unfold cleanupCall setStatus
  cases h2 : w.peerConnectionRef <;>
    simp [h, h2] <;> cases h3 : w.autoSearch <;> simp [h3]

theorem cleanupCall_pcs_of_none (w : World) (h : w.peerConnectionRef = none) :
    (cleanupCall w).pcs = w.pcs := by
  unfold cleanupCall setStatus
  cases h1 : w.localStreamRef <;>
    simp [h, h1] <;> cases h3 : w.autoSearch <;> simp [h3]

theorem cleanupCall_pcs_of_some (w : World) (i : Nat) (h : w.peerConnectionRef = some i) :
    (cleanupCall w).pcs =
      modifyAt w.pcs i
        (fun p => { p with closed := true, connectionState := ConnState.closed }) := by
  unfold cleanupCall setStatus
  cases h1 : w.localStreamRef <;>
    simp [h, h1] <;> cases h3 : w.autoSearch <;> simp [h3]

/-! ## Field lemmas about `setStatus` and `startCall` -/

theorem setStatus_roomId (w : World) (s : String) : (setStatus w s).roomId = w.roomId := rfl

theorem setStatus_timers (w : World) (s : String) : (setStatus w s).timers = w.timers := rfl

theorem setStatus_autoSearch (w : World) (s : String) :
    (setStatus w s).autoSearch = w.autoSearch := rfl

theorem startCall_none (w : World) (ini g : Bool) : startCall w none ini g = w := rfl

theorem startCall_roomId (w : World) (room : Option String) (ini g : Bool) :
    (startCall w room ini g).roomId = w.roomId := by
  unfold startCall setStatus
  cases room <;> cases g <;> cases ini <;> simp

theorem startCall_some_peerConnectionRef (w : World) (r : String) (ini g : Bool) :
    (startCall w (some r) ini g).peerConnectionRef = some w.pcs.length := by
  unfold startCall setStatus
  cases g <;> cases ini <;> simp

theorem startCall_some_status (w : World) (r : String) (ini g : Bool) :
    (startCall w (some r) ini g).status =
      if g then "Initializing call..." else "Error" := by
  unfold startCall setStatus
  cases g <;> cases ini <;> simp

theorem startCall_some_streams (w : World) (r : String) (ini g : Bool) :
    (startCall w (some r) ini g).streams =
      if g then w.streams ++ [MediaStream.mk false] else w.streams := by
  unfold startCall setStatus
  cases g <;> cases ini <;> simp

theorem startCall_some_localStreamRef (w : World) (r : String) (ini g : Bool) :
    (startCall w (some r) ini g).localStreamRef =
      if g then some w.streams.length else w.localStreamRef := by
  unfold startCall setStatus
  cases g <;> cases ini <;> simp

theorem startCall_responder_emissions (w : World) (r : String) (g : Bool) :
    (startCall w (some r) false g).emissions = w.emissions := by
  unfold startCall setStatus
  cases g <;> simp

theorem startCall_responder_granted_pcs_getElem (w : World) (r : String) :
    (startCall w (some r) false true).pcs[w.pcs.length]? =
      some (PeerConnection.mk false ConnState.newConn none none [] [w.streams.length]
        w.nextTimerId) := by
  unfold startCall setStatus
  simp [modifyAt_getElem?_self, List.getElem?_append_right]

/-! ## Live-resource counting lemmas -/

theorem liveStreamCount_append_le (l : List MediaStream) (x : MediaStream) :
    liveStreamCount (l ++ [x]) ≤ liveStreamCount l + 1 := by
  unfold liveStreamCount
  rw [List.filter_append, List.length_append]
  have h : (List.filter (fun s => !s.stopped) [x]).length ≤ 1 :=
    List.length_filter_le _ _
  omega

theorem livePeerConnectionCount_append_le (l : List PeerConnection) (x : PeerConnection) :
    livePeerConnectionCount (l ++ [x]) ≤ livePeerConnectionCount l + 1 := by
  unfold livePeerConnectionCount
  rw [List.filter_append, List.length_append]
  have h : (List.filter (fun p => !p.closed) [x]).length ≤ 1 :=
    List.length_filter_le _ _
  omega

theorem liveStreamCount_stop_le (l : List MediaStream) (i : Nat) :
    liveStreamCount (modifyAt l i (fun s => { s with stopped := true })) ≤
      liveStreamCount l := by
  unfold liveStreamCount
  exact length_filter_modifyAt_le _ _ (fun a h => by simp at h) l i

theorem livePeerConnectionCount_close_le (l : List PeerConnection) (i : Nat) :
    livePeerConnectionCount (modifyAt l i
      (fun p => { p with closed := true, connectionState := ConnState.closed })) ≤
        livePeerConnectionCount l := by
  unfold livePeerConnectionCount
  exact length_filter_modifyAt_le _ _ (fun a h => by simp at h) l i

theorem livePeerConnectionCount_modify_closed_eq (l : List PeerConnection) (i : Nat)
    (f : PeerConnection → PeerConnection) (hf : ∀ p, (f p).closed = p.closed) :
    livePeerConnectionCount (modifyAt l i f) ≤ livePeerConnectionCount l := by
  unfold livePeerConnectionCount
  exact length_filter_modifyAt_le _ _ (fun a h => by rw [hf] at h; exact h) l i

theorem liveStreamCount_cleanupCall_le (w : World) :
    liveStreamCount (cleanupCall w).streams ≤ liveStreamCount w.streams := by
  cases h : w.localStreamRef with
  | none => rw [cleanupCall_streams_of_none w h]
  | some i => rw [cleanupCall_streams_of_some w i h]; exact liveStreamCount_stop_le _ _

theorem livePeerConnectionCount_cleanupCall_le (w : World) :
    livePeerConnectionCount (cleanupCall w).pcs ≤ livePeerConnectionCount w.pcs := by
  cases h : w.peerConnectionRef with
  | none => rw [cleanupCall_pcs_of_none w h]
  | some i => rw [cleanupCall_pcs_of_some w i h]; exact livePeerConnectionCount_close_le _ _

theorem liveStreamCount_startCall_le (w : World) (room : Option String) (ini g : Bool) :
    liveStreamCount (startCall w room ini g).streams ≤ liveStreamCount w.streams + 1 := by
  cases room with
  | none => rw [startCall_none]; omega
  | some r =>
    rw [startCall_some_streams]
    cases g with
    | false => simp
    | true => simpa using liveStreamCount_append_le w.streams (MediaStream.mk false)

theorem livePeerConnectionCount_startCall_le (w : World) (room : Option String)
    (ini g : Bool) :
    livePeerConnectionCount (startCall w room ini g).pcs ≤
      livePeerConnectionCount w.pcs + 1 := by
  cases room with
  | none => rw [startCall_none]; omega
  | some r =>
    unfold startCall setStatus
    cases g with
    | false => simp; exact livePeerConnectionCount_append_le _ _
    | true =>
      cases ini with
      | false =>
        simp only [Bool.false_eq_true, if_true, if_false, ite_true, ite_false]
        calc livePeerConnectionCount (modifyAt (w.pcs ++
                [PeerConnection.mk false ConnState.newConn none none [] [] w.nextTimerId])
                w.pcs.length (fun p => { p with addedTracks := p.addedTracks ++ [w.streams.length] }))
            ≤ livePeerConnectionCount (w.pcs ++
                [PeerConnection.mk false ConnState.newConn none none [] [] w.nextTimerId]) :=
              livePeerConnectionCount_modify_closed_eq _ _ _ (fun p => rfl)
          _ ≤ livePeerConnectionCount w.pcs + 1 := livePeerConnectionCount_append_le _ _
      | true =>
        simp only [ite_true, ite_false]
        calc livePeerConnectionCount (modifyAt (modifyAt (w.pcs ++
                [PeerConnection.mk false ConnState.newConn none none [] [] w.nextTimerId])
                w.pcs.length (fun p => { p with addedTracks := p.addedTracks ++ [w.streams.length] }))
                w.pcs.length (fun p => { p with localDescription := some (Sdp.offerSdp w.pcs.length) }))
            ≤ livePeerConnectionCount (modifyAt (w.pcs ++
                [PeerConnection.mk false ConnState.newConn none none [] [] w.nextTimerId])
                w.pcs.length (fun p => { p with addedTracks := p.addedTracks ++ [w.streams.length] })) :=
              livePeerConnectionCount_modify_closed_eq _ _ _ (fun p => rfl)
          _ ≤ livePeerConnectionCount (w.pcs ++
                [PeerConnection.mk false ConnState.newConn none none [] [] w.nextTimerId]) :=
              livePeerConnectionCount_modify_closed_eq _ _ _ (fun p => rfl)
          _ ≤ livePeerConnectionCount w.pcs + 1 := livePeerConnectionCount_append_le _ _

/-! ## Streams/pcs characterizations of the handlers -/

theorem respondToOffer_streams (w : World) (o : Sdp) :
    (respondToOffer w o).streams = w.streams := by
  unfold respondToOffer
  split <;> rfl

theorem respondToOffer_pcs_le (w : World) (o : Sdp) :
    livePeerConnectionCount (respondToOffer w o).pcs ≤
      livePeerConnectionCount w.pcs := by
  unfold respondToOffer
  split
  · exact Nat.le_refl _
  · exact le_trans (livePeerConnectionCount_modify_closed_eq _ _ _ (fun p => rfl))
      (livePeerConnectionCount_modify_closed_eq _ _ _ (fun p => rfl))

theorem handleAnswer_streams (w : World) (a : Sdp) :
    (handleAnswer w a).streams = w.streams := by
  unfold handleAnswer
  split <;> rfl

theorem handleAnswer_pcs_le (w : World) (a : Sdp) :
    livePeerConnectionCount (handleAnswer w a).pcs ≤ livePeerConnectionCount w.pcs := by
  unfold handleAnswer
  split
  · exact Nat.le_refl _
  · exact livePeerConnectionCount_modify_closed_eq _ _ _ (fun p => rfl)

theorem handleIceCandidate_streams (w : World) (c : Option Candidate) :
    (handleIceCandidate w c).streams = w.streams := by
  unfold handleIceCandidate
  split
  · split
    · split <;> rfl
    · rfl
  · rfl

theorem handleIceCandidate_pcs_le (w : World) (c : Option Candidate) :
    livePeerConnectionCount (handleIceCandidate w c).pcs ≤
      livePeerConnectionCount w.pcs := by
  unfold handleIceCandidate
  split
  · split
    · split
      · exact livePeerConnectionCount_modify_closed_eq _ _ _ (fun p => rfl)
      · exact Nat.le_refl _
    · exact Nat.le_refl _
  · exact Nat.le_refl _

theorem liveStreamCount_connStateChange_le (w : World) (i : Nat) (s : ConnState) :
    liveStreamCount (handleConnectionStateChange w i s).streams ≤
      liveStreamCount w.streams := by
  unfold handleConnectionStateChange
  dsimp only
  repeat' split
  all_goals first
    | exact liveStreamCount_cleanupCall_le _
    | exact Nat.le_refl _

theorem livePeerConnectionCount_connStateChange_le (w : World) (i : Nat) (s : ConnState) :
    livePeerConnectionCount (handleConnectionStateChange w i s).pcs ≤
      livePeerConnectionCount w.pcs := by
  have hmod : livePeerConnectionCount (modifyAt w.pcs i
      (fun p => { p with connectionState := s })) ≤ livePeerConnectionCount w.pcs :=
    livePeerConnectionCount_modify_closed_eq _ _ _ (fun p => rfl)
  unfold handleConnectionStateChange
  dsimp only
  repeat' split
  all_goals first
    | exact le_trans (livePeerConnectionCount_cleanupCall_le _) hmod
    | exact hmod

theorem liveStreamCount_fireTimer_le (w : World) (tid : Nat) :
    liveStreamCount (fireTimer w tid).streams ≤ liveStreamCount w.streams := by
  unfold fireTimer
  dsimp only
  repeat' split
  all_goals first
    | exact liveStreamCount_cleanupCall_le _
    | exact Nat.le_refl _

theorem livePeerConnectionCount_fireTimer_le (w : World) (tid : Nat) :
    livePeerConnectionCount (fireTimer w tid).pcs ≤ livePeerConnectionCount w.pcs := by
  unfold fireTimer
  dsimp only
  repeat' split
  all_goals first
    | exact livePeerConnectionCount_cleanupCall_le _
    | exact Nat.le_refl _

/-! ## Per-step live-resource bounds -/

theorem liveStreamCount_step_le (w : World) (e : Event) :
    liveStreamCount (step w e).streams ≤ liveStreamCount w.streams + 1 := by
  cases e with
  | partnerFound r ini g =>
    exact liveStreamCount_startCall_le
      (setStatus { w with roomId := some r } "Partner found, starting call...") (some r) ini g
  | offer sdp g =>
    rw [show (step w (Event.offer sdp g)).streams = (if w.peerConnectionRef.isNone
        then startCall w w.roomId false g else w).streams from respondToOffer_streams _ sdp]
    split
    · exact liveStreamCount_startCall_le w w.roomId false g
    · exact Nat.le_succ _
  | answer a =>
    rw [show (step w (Event.answer a)).streams = w.streams from handleAnswer_streams w a]
    exact Nat.le_succ _
  | iceCandidate c =>
    rw [show (step w (Event.iceCandidate c)).streams = w.streams from
      handleIceCandidate_streams w c]
    exact Nat.le_succ _
  | hangup =>
    show liveStreamCount (cleanupCall (setStatus w "Partner hung up")).streams ≤
      liveStreamCount w.streams + 1
    exact le_trans (liveStreamCount_cleanupCall_le _) (Nat.le_succ _)
  | disconnect =>
    show liveStreamCount (cleanupCall (setStatus w "Disconnected from server")).streams ≤
      liveStreamCount w.streams + 1
    exact le_trans (liveStreamCount_cleanupCall_le _) (Nat.le_succ _)
  | buttonClick g =>
    show liveStreamCount (handleButtonClick w g).streams ≤ liveStreamCount w.streams + 1
    unfold handleButtonClick
    dsimp only
    repeat' split
    all_goals first
      | exact le_trans (liveStreamCount_cleanupCall_le _) (Nat.le_succ _)
      | exact liveStreamCount_append_le w.streams (MediaStream.mk false)
      | exact Nat.le_succ _
  | toggleAuto => exact Nat.le_succ _
  | connStateChange i s =>
    exact le_trans (liveStreamCount_connStateChange_le w i s) (Nat.le_succ _)
  | timerFire tid =>
    exact le_trans (liveStreamCount_fireTimer_le w tid) (Nat.le_succ _)

theorem livePeerConnectionCount_step_le (w : World) (e : Event) :
    livePeerConnectionCount (step w e).pcs ≤ livePeerConnectionCount w.pcs + 1 := by
  cases e with
  | partnerFound r ini g =>
    exact livePeerConnectionCount_startCall_le
      (setStatus { w with roomId := some r } "Partner found, starting call...") (some r) ini g
  | offer sdp g =>
    refine le_trans (respondToOffer_pcs_le _ sdp) ?_
    split
    · exact livePeerConnectionCount_startCall_le w w.roomId false g
    · exact Nat.le_succ _
  | answer a =>
    exact le_trans (handleAnswer_pcs_le w a) (Nat.le_succ _)
  | iceCandidate c =>
    exact le_trans (handleIceCandidate_pcs_le w c) (Nat.le_succ _)
  | hangup =>
    show livePeerConnectionCount (cleanupCall (setStatus w "Partner hung up")).pcs ≤
      livePeerConnectionCount w.pcs + 1
    exact le_trans (livePeerConnectionCount_cleanupCall_le _) (Nat.le_succ _)
  | disconnect =>
    show livePeerConnectionCount (cleanupCall (setStatus w "Disconnected from server")).pcs ≤
      livePeerConnectionCount w.pcs + 1
    exact le_trans (livePeerConnectionCount_cleanupCall_le _) (Nat.le_succ _)
  | buttonClick g =>
    show livePeerConnectionCount (handleButtonClick w g).pcs ≤
      livePeerConnectionCount w.pcs + 1
    unfold handleButtonClick
    dsimp only
    repeat' split
    all_goals first
      | exact le_trans (livePeerConnectionCount_cleanupCall_le _) (Nat.le_succ _)
      | exact Nat.le_succ _
  | toggleAuto => exact Nat.le_succ _
  | connStateChange i s =>
    exact le_trans (livePeerConnectionCount_connStateChange_le w i s) (Nat.le_succ _)
  | timerFire tid =>
    exact le_trans (livePeerConnectionCount_fireTimer_le w tid) (Nat.le_succ _)

/-! ## The ref invariant and its preservation -/

theorem refInvariant_cleanup (w : World) : RefInvariant (cleanupCall w) := by
  constructor
  · intro hp
    rw [cleanupCall_peerConnectionRef] at hp
    exact absurd hp (by decide)
  · intro _
    exact cleanupCall_peerConnectionRef w

theorem refInvariant_startCall (w : World) (r : String) (ini g : Bool)
    (h : w.roomId = some r) : RefInvariant (startCall w (some r) ini g) := by
  constructor
  · intro _
    rw [startCall_roomId, h]
    rfl
  · intro hs
    rw [startCall_some_status] at hs
    cases g with
    | true => exact absurd hs (by decide)
    | false => exact absurd hs (by decide)

theorem refInvariant_respondToOffer (u : World) (sdp : Sdp) (h : RefInvariant u) :
    RefInvariant (respondToOffer u sdp) := by
  unfold respondToOffer
  split
  · exact h
  · exact h

theorem pcRef_none_of_roomId_none (w : World) (h : RefInvariant w) (hr : w.roomId = none) :
    w.peerConnectionRef = none := by
  cases hp : w.peerConnectionRef with
  | none => rfl
  | some j =>
    have h1 := h.1 (by rw [hp]; rfl)
    rw [hr] at h1
    exact absurd h1 (by decide)

theorem refInvariant_step (w : World) (h : RefInvariant w) (e : Event) :
    RefInvariant (step w e) := by
  cases e with
  | partnerFound r ini g =>
    exact refInvariant_startCall
      (setStatus { w with roomId := some r } "Partner found, starting call...") r ini g rfl
  | offer sdp g =>
    show RefInvariant (respondToOffer (if w.peerConnectionRef.isNone
        then startCall w w.roomId false g else w) sdp)
    apply refInvariant_respondToOffer
    split
    · cases hr : w.roomId with
      | none => rw [startCall_none]; exact h
      | some r => exact refInvariant_startCall w r false g hr
    · exact h
  | answer a =>
    show RefInvariant (handleAnswer w a)
    unfold handleAnswer
    split
    · exact h
    · exact h
  | iceCandidate c =>
    show RefInvariant (handleIceCandidate w c)
    unfold handleIceCandidate
    repeat' split
    all_goals exact h
  | hangup => exact refInvariant_cleanup _
  | disconnect => exact refInvariant_cleanup _
  | buttonClick g =>
    show RefInvariant (handleButtonClick w g)
    unfold handleButtonClick
    dsimp only
    split
    · exact refInvariant_cleanup _
    · split
      · exact ⟨h.1, fun _ => pcRef_none_of_roomId_none w h (by assumption)⟩
      · exact ⟨h.1, fun _ => pcRef_none_of_roomId_none w h (by assumption)⟩
  | toggleAuto => exact h
  | connStateChange i s =>
    show RefInvariant (handleConnectionStateChange w i s)
    unfold handleConnectionStateChange
    dsimp only
    repeat' split
    all_goals first
      | exact refInvariant_cleanup _
      | exact h
  | timerFire tid =>
    show RefInvariant (fireTimer w tid)
    unfold fireTimer
    dsimp only
    repeat' split
    all_goals first
      | exact refInvariant_cleanup _
      | exact h

theorem refInvariant_run_aux (es : List Event) :
    ∀ w : World, RefInvariant w → RefInvariant (run w es) := by
  induction es with
  | nil => exact fun w h => h
  | cons e es ih => exact fun w h => ih (step w e) (refInvariant_step w h e)

theorem refInvariant_init : RefInvariant init :=
  ⟨fun h' => absurd h' (by decide), fun _ => rfl⟩

theorem refInvariant_run (es : List Event) : RefInvariant (run init es) :=
  refInvariant_run_aux es init refInvariant_init

/-! ## Handler specification lemmas used by the claim theorems -/

theorem respondToOffer_spec (u : World) (i : Nat) (sdp : Sdp)
    (hp : u.peerConnectionRef = some i) :
    (respondToOffer u sdp).peerConnectionRef = some i ∧
    (respondToOffer u sdp).pcs[i]? = (u.pcs[i]?).map
      (fun p =>
        { p with
          remoteDescription := some sdp,
          localDescription := some (Sdp.answerSdp i) }) ∧
    (respondToOffer u sdp).emissions =
      u.emissions ++ [Emission.answerMsg u.roomId (Sdp.answerSdp i)] ∧
    (respondToOffer u sdp).roomId = u.roomId := by
  unfold respondToOffer
  rw [hp]
  dsimp only
  refine ⟨rfl, ?_, rfl, rfl⟩
  rw [modifyAt_getElem?_self, modifyAt_getElem?_self]
  cases u.pcs[i]? <;> rfl

theorem find?_id_append_single (l : List Timer) (tid d : Nat) (a : TimerAction)
    (h : ∀ t ∈ l, t.id ≠ tid) :
    (l ++ [Timer.mk tid d a]).find? (fun u => u.id == tid) = some (Timer.mk tid d a) := by
  rw [List.find?_append]
  have h1 : l.find? (fun u => u.id == tid) = none := by
    rw [List.find?_eq_none]
    intro x hx
    simp [h x hx]
  rw [h1]
  simp

theorem fireTimer_scheduled_emitFindPartner (w : World) (tid : Nat) (t : Timer)
    (hfind : w.timers.find? (fun u => u.id == tid) = some t)
    (hact : t.action = TimerAction.emitFindPartner) :
    (fireTimer w tid).emissions = w.emissions ++ [Emission.findPartner] := by
  unfold fireTimer
  rw [hfind]
  dsimp only
  rw [hact]

theorem fireTimer_connTimeout_not_connected (w : World) (tid : Nat) (t : Timer)
    (hfind : w.timers.find? (fun u => u.id == tid) = some t)
    (hact : t.action = TimerAction.connTimeout)
    (hcur : (w.peerConnectionRef.bind fun j =>
      (w.pcs[j]?).map (fun p => p.connectionState)) ≠ some ConnState.connected) :
    fireTimer w tid =
      cleanupCall { w with timers := w.timers.filter (fun u => u.id != tid) } := by
  unfold fireTimer
  rw [hfind]
  dsimp only
  rw [hact]
  dsimp only
  rw [if_neg hcur]

theorem connStateChange_connected_spec (w : World) (i : Nat) (p : PeerConnection)
    (hp : w.peerConnectionRef = some i) (hpv : w.pcs[i]? = some p) :
    handleConnectionStateChange w i ConnState.connected =
      { w with
        pcs := modifyAt w.pcs i (fun q => { q with connectionState := ConnState.connected }),
        timers := w.timers.filter (fun t => t.id != p.timeoutId) } := by
  have hg : (modifyAt w.pcs i
      (fun q => { q with connectionState := ConnState.connected }))[i]? =
      some { p with connectionState := ConnState.connected } := by
    rw [modifyAt_getElem?_self, hpv]
    rfl
  unfold handleConnectionStateChange
  dsimp only
  rw [hp]
  simp only [Option.some_bind, hg, Option.map_some']
  simp

/-! ## Claim theorems -/

/-- C1 counterexample: in the trace PartnerFound(responder) → IceCandidate 7
→ Offer, the candidate arrives while the peer connection exists but before
any remote description is set; after the Offer sets the remote description
the candidate has been applied zero times — it was dropped, not queued and
applied once. -/
theorem c1_counterexample :
    ((run init [Event.partnerFound "A" false true, Event.iceCandidate (some 7),
        Event.offer (Sdp.offerSdp 0) true]).pcs.map
      (fun p => (p.addedCandidates, p.remoteDescription.isSome))) = [([], true)] := rfl

/-- C1 amended: an ICE candidate received while a peer connection exists but
before its remote description is set is handed straight to `addIceCandidate`,
which fails; the error is caught and logged and the candidate is dropped with
no state change — there is no `pendingCandidates` queue and the candidate is
never applied later. -/
theorem c1_candidate_before_remote_description_dropped (w : World) (i : Nat)
    (p : PeerConnection) (c : Candidate) (hpc : w.peerConnectionRef = some i)
    (hp : w.pcs[i]? = some p) (hrd : p.remoteDescription = none) :
    step w (Event.iceCandidate (some c)) = w := by
  show handleIceCandidate w (some c) = w
  unfold handleIceCandidate
  rw [hpc]
  dsimp only
  rw [hp]
  dsimp only
  simp [hrd]

/-- Witness for the C1 amended theorem at a concrete reachable state. -/
theorem c1_amended_witness :
    step (run init [Event.partnerFound "A" false true]) (Event.iceCandidate (some 7)) =
      run init [Event.partnerFound "A" false true] :=
  c1_candidate_before_remote_description_dropped _ 0
    (PeerConnection.mk false ConnState.newConn none none [] [0] 0) 7 rfl rfl rfl

/-- C2 counterexample: with the auto-search flag set (its initial value), a
transport disconnect runs cleanup, re-enters the Searching status and
schedules a 500 ms `findPartner` emission — contradicting the claim that the
program ends Idle without emitting FindPartner regardless of the flag. -/
theorem c2_counterexample :
    (step init Event.disconnect).status = "Searching for a partner..." ∧
    (step init Event.disconnect).timers = [Timer.mk 0 500 TimerAction.emitFindPartner] ∧
    (fireTimer (step init Event.disconnect) 0).emissions = [Emission.findPartner] :=
  ⟨rfl, rfl, rfl⟩

/-- C2 amended: a transport disconnect always runs cleanup (roomId cleared,
peer connection and stream refs dropped); when auto-search is off the program
ends Idle with no FindPartner scheduled, but when auto-search is on it
re-enters the Searching status and schedules the delayed FindPartner — the
code does not suppress auto-search on disconnect. -/
theorem c2_disconnect_cleanup (w : World) :
    (step w Event.disconnect).roomId = none ∧
    (step w Event.disconnect).peerConnectionRef = none ∧
    (step w Event.disconnect).localStreamRef = none ∧
    (w.autoSearch = false → (step w Event.disconnect).status = "Idle" ∧
      (step w Event.disconnect).timers = w.timers ∧
      (step w Event.disconnect).emissions = w.emissions) ∧
    (w.autoSearch = true →
      (step w Event.disconnect).status = "Searching for a partner..." ∧
      (step w Event.disconnect).timers =
        w.timers ++ [Timer.mk w.nextTimerId 500 TimerAction.emitFindPartner]) := by
  have e : step w Event.disconnect = cleanupCall (setStatus w "Disconnected from server") :=
    rfl
  rw [e]
  refine ⟨cleanupCall_roomId _, cleanupCall_peerConnectionRef _,
    cleanupCall_localStreamRef _, ?_, ?_⟩
  · intro ha
    refine ⟨?_, ?_, cleanupCall_emissions _⟩
    · rw [cleanupCall_status]; simp [setStatus, ha]
    · rw [cleanupCall_timers]; simp [setStatus, ha]
  · intro ha
    refine ⟨?_, ?_⟩
    · rw [cleanupCall_status]; simp [setStatus, ha]
    · rw [cleanupCall_timers]; simp [setStatus, ha]

/-- Witness for the C2 amended theorem at the initial state (auto-search on). -/
theorem c2_amended_witness :
    (step init Event.disconnect).roomId = none ∧
    (step init Event.disconnect).status = "Searching for a partner..." :=
  ⟨(c2_disconnect_cleanup init).1, ((c2_disconnect_cleanup init).2.2.2.2 rfl).1⟩

/-- C3 counterexample: a PartnerFound whose `getUserMedia` is denied leaves
the observable status at `Error` while the peer-connection ref still holds a
live (unclosed) connection — `peerLink` is non-null in the Error status. -/
theorem c3_counterexample :
    (run init [Event.partnerFound "A" true false]).status = "Error" ∧
    (run init [Event.partnerFound "A" true false]).peerConnectionRef = some 0 ∧
    ((run init [Event.partnerFound "A" true false]).pcs.map (fun p => p.closed)) =
      [false] :=
  ⟨rfl, rfl, rfl⟩

/-- C3 amended: in every reachable state the peer-connection ref is null
whenever the observable status is Idle or one of the Searching-phase
statuses; it can however be non-null while the status is `Error` (media
acquisition failed after the connection was created), so the claimed
iff with Negotiating/Active fails only through the Error status. -/
theorem c3_peerlink_none_when_idle_or_searching (es : List Event)
    (h : searchingOrIdleStatus (run init es).status = true) :
    (run init es).peerConnectionRef = none :=
  (refInvariant_run es).2 h

/-- Witness for the C3 amended theorem at the empty trace. -/
theorem c3_amended_witness :
    searchingOrIdleStatus (run init []).status = true ∧
    (run init []).peerConnectionRef = none :=
  ⟨rfl, c3_peerlink_none_when_idle_or_searching [] rfl⟩

/-- C4: evaluating the code at the failing inputs.  Clicking Search (media
granted) acquires a stream, and the following PartnerFound acquires a second
stream inside `startCall` without stopping the first: two live local media
streams.  Likewise, a second PartnerFound creates a second peer connection
without closing the first: two live peer connections. -/
theorem c4_two_live_resources :
    liveStreamCount (run init [Event.buttonClick true,
      Event.partnerFound "A" false true]).streams = 2 ∧
    livePeerConnectionCount (run init [Event.partnerFound "A" true true,
      Event.partnerFound "B" true true]).pcs = 2 :=
  ⟨rfl, rfl⟩

/-- C5: the cleanup routine is idempotent on the observable state the claim
enumerates (session fields, allocated objects, current status, error, flag,
emissions — everything except pending-timer bookkeeping), and each cleanup
invocation schedules at most one rematch timer. -/
theorem c5_cleanup_idempotent (w : World) :
    cleanupObservable (cleanupCall (cleanupCall w)) = cleanupObservable (cleanupCall w) ∧
    (cleanupCall w).timers.length ≤ w.timers.length + 1 := by
  constructor
  · simp [cleanupObservable, cleanupCall_roomId, cleanupCall_status,
      cleanupCall_autoSearch, cleanupCall_errorMsg, cleanupCall_emissions,
      cleanupCall_peerConnectionRef, cleanupCall_localStreamRef,
      cleanupCall_streams_of_none, cleanupCall_pcs_of_none]
  · rw [cleanupCall_timers]
    split <;> simp

/-- C6 counterexample: after a remote hangup has run cleanup (roomId
cleared), a second, stale Hangup is not a no-op — it re-runs cleanup and
schedules another delayed FindPartner emission (timer count grows from 2,
the connection timeout plus one rematch timer, to 3). -/
theorem c6_counterexample :
    (run init [Event.partnerFound "A" true true, Event.hangup]).roomId = none ∧
    (run init [Event.partnerFound "A" true true, Event.hangup]).timers.length = 2 ∧
    (run init [Event.partnerFound "A" true true, Event.hangup,
      Event.hangup]).timers.length = 3 :=
  ⟨rfl, rfl, rfl⟩

/-- C6 amended: after cleanup (roomId and the peer-connection ref cleared),
stale Offer, Answer and IceCandidate messages are exact no-ops, but a stale
Hangup re-runs cleanup, scheduling another delayed FindPartner whenever
auto-search is set. -/
theorem c6_stale_messages (w : World) (sdp a : Sdp) (c : Option Candidate) (g : Bool)
    (h1 : w.roomId = none) (h2 : w.peerConnectionRef = none) :
    step w (Event.offer sdp g) = w ∧ step w (Event.answer a) = w ∧
    step w (Event.iceCandidate c) = w ∧
    (step w Event.hangup).timers = w.timers ++
      (if w.autoSearch then [Timer.mk w.nextTimerId 500 TimerAction.emitFindPartner]
       else []) := by
  refine ⟨?_, ?_, ?_, ?_⟩
  · show respondToOffer (if w.peerConnectionRef.isNone
        then startCall w w.roomId false g else w) sdp = w
    rw [h1, h2]
    simp only [Option.isNone_none, if_true, startCall_none]
    unfold respondToOffer
    rw [h2]
  · show handleAnswer w a = w
    unfold handleAnswer
    rw [h2]
  · show handleIceCandidate w c = w
    unfold handleIceCandidate
    rw [h2]
  · show (cleanupCall (setStatus w "Partner hung up")).timers = _
    rw [cleanupCall_timers]
    cases ha : w.autoSearch <;> simp [setStatus, ha]

/-- Witness for the C6 amended theorem at the initial state. -/
theorem c6_amended_witness :
    step init (Event.offer (Sdp.offerSdp 1) true) = init ∧
    step init (Event.answer (Sdp.answerSdp 1)) = init ∧
    step init (Event.iceCandidate (some 3)) = init ∧
    (step init Event.hangup).timers = [Timer.mk 0 500 TimerAction.emitFindPartner] := by
  obtain ⟨a, b, c, d⟩ :=
    c6_stale_messages init (Sdp.offerSdp 1) (Sdp.answerSdp 1) (some 3) true rfl rfl
  exact ⟨a, b, c, by rw [d]; rfl⟩

/-- C7 counterexample: an Offer received with no peer connection and no prior
PartnerFound (so `roomId` is null) is dropped entirely — `startCall(null,
false)` early-returns, no peer connection is created and no Answer is
emitted; the state is unchanged. -/
theorem c7_counterexample :
    step init (Event.offer (Sdp.offerSdp 5) true) = init ∧
    (step init (Event.offer (Sdp.offerSdp 5) true)).peerConnectionRef = none ∧
    (step init (Event.offer (Sdp.offerSdp 5) true)).emissions = [] :=
  ⟨rfl, rfl, rfl⟩

/-- C7 amended: the lazy peer-connection creation on an Offer works only when
`roomId` is already set (a prior PartnerFound stored it): then the peer
connection is created, the remote description is set to the Offer, and an
Answer for that room is emitted; with `roomId` null the Offer is dropped. -/
theorem c7_lazy_peerlink_requires_roomid (w : World) (B : String) (sdp : Sdp)
    (hr : w.roomId = some B) (hpc : w.peerConnectionRef = none) :
    (step w (Event.offer sdp true)).peerConnectionRef = some w.pcs.length ∧
    ((step w (Event.offer sdp true)).pcs[w.pcs.length]?).map
      (fun p => p.remoteDescription) = some (some sdp) ∧
    (step w (Event.offer sdp true)).emissions =
      w.emissions ++ [Emission.answerMsg (some B) (Sdp.answerSdp w.pcs.length)] := by
  have hstep : step w (Event.offer sdp true) =
      respondToOffer (startCall w (some B) false true) sdp := by
    show respondToOffer _ sdp = _
    rw [hpc, hr]
    simp only [Option.isNone_none, if_true]
  obtain ⟨ha, hb, hc, _⟩ := respondToOffer_spec (startCall w (some B) false true)
    w.pcs.length sdp (startCall_some_peerConnectionRef w B false true)
  refine ⟨?_, ?_, ?_⟩
  · rw [hstep]; exact ha
  · rw [hstep, hb, startCall_responder_granted_pcs_getElem]; rfl
  · rw [hstep, hc, startCall_responder_emissions, startCall_roomId, hr]

/-- Witness for the C7 amended theorem at a state with `roomId` set and no
peer connection. -/
theorem c7_amended_witness :
    (step { init with roomId := some "B" } (Event.offer (Sdp.offerSdp 9) true)).emissions =
      [Emission.answerMsg (some "B") (Sdp.answerSdp 0)] := by
  have h := (c7_lazy_peerlink_requires_roomid { init with roomId := some "B" } "B"
    (Sdp.offerSdp 9) rfl rfl).2.2
  rw [h]; rfl

/-- C8: the negotiation-timeout behaviour.  First half: when the 10 s
connection timeout fires while the current peer connection's state is not
`connected`, cleanup runs (session cleared, status back to Idle or
Searching).  Second half: when the connection-state change to `connected` is
processed, the captured timeout is removed from the pending timers (so it can
never fire: firing its id afterwards is a no-op) and no cleanup happens —
roomId, the peer-connection ref and the status are untouched. -/
theorem c8_negotiation_timeout :
    (∀ (w : World) (tid : Nat) (t : Timer),
      w.timers.find? (fun u => u.id == tid) = some t →
      t.action = TimerAction.connTimeout →
      (w.peerConnectionRef.bind fun j =>
        (w.pcs[j]?).map (fun p => p.connectionState)) ≠ some ConnState.connected →
      (fireTimer w tid).roomId = none ∧ (fireTimer w tid).peerConnectionRef = none ∧
        (fireTimer w tid).localStreamRef = none ∧
        (fireTimer w tid).status =
          (if w.autoSearch then "Searching for a partner..." else "Idle")) ∧
    (∀ (w : World) (i : Nat) (p : PeerConnection),
      w.peerConnectionRef = some i → w.pcs[i]? = some p →
      (∀ t ∈ (handleConnectionStateChange w i ConnState.connected).timers,
        t.id ≠ p.timeoutId) ∧
      (handleConnectionStateChange w i ConnState.connected).roomId = w.roomId ∧
      (handleConnectionStateChange w i ConnState.connected).peerConnectionRef =
        w.peerConnectionRef ∧
      (handleConnectionStateChange w i ConnState.connected).status = w.status ∧
      fireTimer (handleConnectionStateChange w i ConnState.connected) p.timeoutId =
        handleConnectionStateChange w i ConnState.connected) := by
  constructor
  · intro w tid t hfind hact hcur
    rw [fireTimer_connTimeout_not_connected w tid t hfind hact hcur]
    refine ⟨cleanupCall_roomId _, cleanupCall_peerConnectionRef _,
      cleanupCall_localStreamRef _, ?_⟩
    rw [cleanupCall_status]
  · intro w i p hp hpv
    rw [connStateChange_connected_spec w i p hp hpv]
    have htimers : ∀ t ∈ List.filter (fun t => t.id != p.timeoutId) w.timers,
        t.id ≠ p.timeoutId := by
      intro t ht
      have h2 := (List.mem_filter.mp ht).2
      simpa using h2
    refine ⟨?_, rfl, rfl, rfl, ?_⟩
    · intro t ht
      exact htimers t ht
    · have hnone : (List.filter (fun t => t.id != p.timeoutId) w.timers).find?
          (fun u => u.id == p.timeoutId) = none := by
        rw [List.find?_eq_none]
        intro x hx
        have h3 := htimers x hx
        simpa using h3
      unfold fireTimer
      dsimp only
      rw [hnone]

/-- Witness for C8 at the state reached by an initiator PartnerFound: firing
the scheduled timeout (id 0) while the connection state is still `new` runs
cleanup, and processing a `connected` state change removes timer 0. -/
theorem c8_witness :
    (fireTimer (run init [Event.partnerFound "A" true true]) 0).roomId = none ∧
    (∀ t ∈ (handleConnectionStateChange (run init [Event.partnerFound "A" true true]) 0
        ConnState.connected).timers, t.id ≠ 0) := by
  constructor
  · exact (c8_negotiation_timeout.1 (run init [Event.partnerFound "A" true true]) 0
      (Timer.mk 0 10000 TimerAction.connTimeout) rfl rfl (by decide)).1
  · exact (c8_negotiation_timeout.2 (run init [Event.partnerFound "A" true true]) 0
      (PeerConnection.mk false ConnState.newConn none (some (Sdp.offerSdp 0)) [] [0] 0)
      rfl rfl).1

/-- C9: a remote Hangup on a live session (stream and peer connection held,
roomId set) stops the local stream, closes the peer connection, clears all
session fields, sets the status to Idle during cleanup, and schedules the
500 ms FindPartner re-emission exactly when the auto-search flag is set
(firing that timer emits FindPartner). -/
theorem c9_remote_hangup (w : World) (r : String) (si pi : Nat) (s : MediaStream)
    (p : PeerConnection) (hr : w.roomId = some r) (hs : w.localStreamRef = some si)
    (hsv : w.streams[si]? = some s) (hp : w.peerConnectionRef = some pi)
    (hpv : w.pcs[pi]? = some p)
    (hfresh : ∀ t ∈ w.timers, t.id ≠ w.nextTimerId) :
    ((step w Event.hangup).streams[si]?).map (fun q => q.stopped) = some true ∧
    ((step w Event.hangup).pcs[pi]?).map (fun q => q.closed) = some true ∧
    (step w Event.hangup).roomId = none ∧
    (step w Event.hangup).peerConnectionRef = none ∧
    (step w Event.hangup).localStreamRef = none ∧
    (step w Event.hangup).statusLog = w.statusLog ++ ["Partner hung up", "Idle"] ++
      (if w.autoSearch then ["Searching for a partner..."] else []) ∧
    (w.autoSearch = true →
      (step w Event.hangup).timers =
        w.timers ++ [Timer.mk w.nextTimerId 500 TimerAction.emitFindPartner] ∧
      (fireTimer (step w Event.hangup) w.nextTimerId).emissions =
        w.emissions ++ [Emission.findPartner]) ∧
    (w.autoSearch = false → (step w Event.hangup).timers = w.timers) := by
  have e : step w Event.hangup = cleanupCall (setStatus w "Partner hung up") := rfl
  have hs' : (setStatus w "Partner hung up").localStreamRef = some si := hs
  have hp' : (setStatus w "Partner hung up").peerConnectionRef = some pi := hp
  have hsv' : (setStatus w "Partner hung up").streams[si]? = some s := hsv
  have hpv' : (setStatus w "Partner hung up").pcs[pi]? = some p := hpv
  refine ⟨?_, ?_, ?_, ?_, ?_, ?_, ?_, ?_⟩
  · rw [e, cleanupCall_streams_of_some _ si hs', modifyAt_getElem?_self, hsv']; rfl
  · rw [e, cleanupCall_pcs_of_some _ pi hp', modifyAt_getElem?_self, hpv']; rfl
  · rw [e]; exact cleanupCall_roomId _
  · rw [e]; exact cleanupCall_peerConnectionRef _
  · rw [e]; exact cleanupCall_localStreamRef _
  · rw [e, cleanupCall_statusLog]; simp [setStatus]
  · intro ha
    have ht : (step w Event.hangup).timers =
        w.timers ++ [Timer.mk w.nextTimerId 500 TimerAction.emitFindPartner] := by
      rw [e, cleanupCall_timers]; simp [setStatus, ha]
    refine ⟨ht, ?_⟩
    have hfind : (step w Event.hangup).timers.find?
        (fun u => u.id == w.nextTimerId) =
        some (Timer.mk w.nextTimerId 500 TimerAction.emitFindPartner) := by
      rw [ht]
      exact find?_id_append_single w.timers w.nextTimerId 500
        TimerAction.emitFindPartner hfresh
    rw [fireTimer_scheduled_emitFindPartner _ _ _ hfind rfl, e, cleanupCall_emissions]
    rfl
  · intro ha
    rw [e, cleanupCall_timers]; simp [setStatus, ha]

/-- Witness for C9 at the live session reached by an initiator PartnerFound. -/
theorem c9_witness :
    (step (run init [Event.partnerFound "A" true true]) Event.hangup).roomId = none ∧
    ((step (run init [Event.partnerFound "A" true true]) Event.hangup).streams[0]?).map
      (fun q => q.stopped) = some true := by
  have h := c9_remote_hangup (run init [Event.partnerFound "A" true true]) "A" 0 0
    (MediaStream.mk false)
    (PeerConnection.mk false ConnState.newConn none (some (Sdp.offerSdp 0)) [] [0] 0)
    rfl rfl rfl rfl rfl (by decide)
  exact ⟨h.2.2.1, h.1⟩

/-- C10: `toggleAutoSearch` flips the auto-search flag and changes nothing
else — in particular an already-scheduled rematch timer survives the toggle,
and firing it still emits FindPartner even though auto-search was turned
off in between. -/
theorem c10_toggle_autosearch_frame (w : World) (tid : Nat) (t : Timer)
    (hfind : w.timers.find? (fun u => u.id == tid) = some t)
    (hact : t.action = TimerAction.emitFindPartner) :
    (toggleAutoSearch w).autoSearch = !w.autoSearch ∧
    (toggleAutoSearch w).roomId = w.roomId ∧
    (toggleAutoSearch w).status = w.status ∧
    (toggleAutoSearch w).statusLog = w.statusLog ∧
    (toggleAutoSearch w).errorMsg = w.errorMsg ∧
    (toggleAutoSearch w).peerConnectionRef = w.peerConnectionRef ∧
    (toggleAutoSearch w).localStreamRef = w.localStreamRef ∧
    (toggleAutoSearch w).pcs = w.pcs ∧
    (toggleAutoSearch w).streams = w.streams ∧
    (toggleAutoSearch w).timers = w.timers ∧
    (toggleAutoSearch w).emissions = w.emissions ∧
    (fireTimer (toggleAutoSearch w) tid).emissions =
      w.emissions ++ [Emission.findPartner] := by
  refine ⟨rfl, rfl, rfl, rfl, rfl, rfl, rfl, rfl, rfl, rfl, rfl, ?_⟩
  exact fireTimer_scheduled_emitFindPartner (toggleAutoSearch w) tid t hfind hact

/-- Witness for C10: disconnect schedules the rematch timer, toggling
auto-search off does not cancel it, and firing it still emits FindPartner. -/
theorem c10_witness :
    (toggleAutoSearch (step init Event.disconnect)).autoSearch = false ∧
    (fireTimer (toggleAutoSearch (step init Event.disconnect)) 0).emissions =
      [Emission.findPartner] := by
  have h := c10_toggle_autosearch_frame (step init Event.disconnect) 0
    (Timer.mk 0 500 TimerAction.emitFindPartner) rfl rfl
  refine ⟨by rw [h.1]; rfl, by rw [h.2.2.2.2.2.2.2.2.2.2.2]; rfl⟩

end AudioOmegle
